import Mathlib

/-!
Verification development for `src/modules/full/smart_home_devices_helper.py`
(Linguflex smart-home device helper).

The Python classes `SmartBulbThread`, `LightManager`, `OutletDeviceThread` and
`OutletManager` are shallowly embedded: mutable objects become Lean structures,
method calls become state-passing functions, and Python exceptions become
`Except PyErr` results.  Thread interleaving is abstracted into explicit steps:
a worker thread's single loop iteration is a function on the worker state, and
the condition-variable handshake is a `notified` flag on the worker record
(`Condition.notify` sets it, a wake consumes it).  Device writes performed by a
worker are recorded in its `applied` trace instead of going to hardware.
-/

/-- Python exceptions that the embedded code can raise. -/
inductive PyErr where
  | keyError (key : String)
  | indexError
  | typeError (msg : String)
  | valueError (msg : String)
  | zeroDivisionError
deriving DecidableEq, Repr

/-- Equality of exceptional results is decidable when both components are. -/
instance exceptDecEq {ε α : Type} [DecidableEq ε] [DecidableEq α] :
    DecidableEq (Except ε α) := fun a b =>
  match a, b with
  | .ok x, .ok y => if h : x = y then isTrue (by rw [h]) else isFalse (by simp [h])
  | .error x, .error y => if h : x = y then isTrue (by rw [h]) else isFalse (by simp [h])
  | .ok _, .error _ => isFalse (by simp)
  | .error _, .ok _ => isFalse (by simp)

/-- A Python dict with string keys and string values, as used for the
bulb/outlet parameter dicts (`{"name": ..., "id": ..., "ip": ..., ...}`).
Keys are assumed unique, lookup returns the first binding. -/
abbrev Dict := List (String × String)

/-- `d[k]`: the value at key `k`; raises `KeyError` when the key is absent. -/
def dictGet (d : Dict) (k : String) : Except PyErr String :=
  match d.find? (fun kv => kv.1 == k) with
  | some kv => .ok kv.2
  | none => .error (.keyError k)

/-- The value of the key `"name"` of a parameter dict, when present. -/
def dictName (d : Dict) : Option String :=
  match dictGet d "name" with
  | .ok v => some v
  | .error _ => none

/-- Whether a dict carries the given key. -/
def dictHasKey (d : Dict) (k : String) : Bool :=
  match dictGet d k with
  | .ok _ => true
  | .error _ => false

/-- Python `str.lower()` restricted to the device names of this code base:
per-character ASCII lowercasing, written structurally over the character list
so that concrete states evaluate.  (Python lowercasing is Unicode-aware, but
the managers only compare configured ASCII device names.) -/
def pyLower (s : String) : String := String.mk (s.data.map Char.toLower)

/-- An RGB triple; Python ints are unbounded, so channels are `Int`. -/
abbrev RGB := Int × Int × Int

/-- Python list indexing: a negative index counts from the end;
`none` means the index is out of range. -/
def pyIdx (len : Nat) (i : Int) : Option Nat :=
  if 0 ≤ i then (if i < len then some i.toNat else none)
  else (if 0 ≤ (len : Int) + i then some ((len : Int) + i).toNat else none)

/-- `l[i]` on a Python list: `IndexError` when out of range. -/
def pyListGet {α : Type} (l : List α) (i : Int) : Except PyErr α :=
  match pyIdx l.length i with
  | some n =>
    match l.get? n with
    | some a => .ok a
    | none => .error .indexError
  | none => .error .indexError

/-- `l[i] = a` on a Python list: `IndexError` when out of range. -/
def pyListSet {α : Type} (l : List α) (i : Int) (a : α) : Except PyErr (List α) :=
  match pyIdx l.length i with
  | some n => .ok (l.set n a)
  | none => .error .indexError

/-- The dict shape returned by the manager control operations:
either `{"result": "success", "state": ..., "name": ...}` or
`{"result": "error", "reason": ..., "name": ...}`.  `α` is the type of the
`state` entry (an RGB triple for bulbs, a boolean for outlets). -/
inductive SetResult (α : Type) where
  | success (state : α) (name : String)
  | error (reason : String) (name : String)
deriving DecidableEq, Repr

/-- The state of one `SmartBulbThread` object (lines 12-85 of the source).
`notified` models the condition-variable handshake: `change_color` notifies
the worker, the worker's wake consumes the notification.  `applied` is the
trace of values written to the tuya device (`device.set_colour` calls). -/
structure SmartBulbThread where
  bulb_param : Dict
  color : RGB
  state : String
  is_running : Bool
  notified : Bool
  applied : List RGB
deriving DecidableEq, Repr

/-- `SmartBulbThread.__init__`: initial color `(0, 0, 0)`, state `off`. -/
def mkSmartBulbThread (p : Dict) : SmartBulbThread :=
  { bulb_param := p, color := (0, 0, 0), state := "off",
    is_running := true, notified := false, applied := [] }

/-- `SmartBulbThread.change_color` (lines 27-31): under the condition lock,
store the requested color in the single slot `self.color` (overwriting any
previous pending value) and notify the worker.  Never blocks the caller. -/
def SmartBulbThread.change_color (t : SmartBulbThread) (c : RGB) : SmartBulbThread :=
  { t with color := c, notified := true }

/-- `SmartBulbThread.set_color` (lines 36-43): write `self.color` to the
device (recorded in the `applied` trace) and settle-sleep. -/
def SmartBulbThread.set_color (t : SmartBulbThread) (rgb : RGB) : SmartBulbThread :=
  { t with color := rgb, applied := t.applied ++ [rgb] }

/-- One wake of the worker loop (lines 66-71): the `wait(timeout=0.5)` call
returns; if it was notified the worker applies the current slot value
`self.color` via `set_color`, otherwise the timeout elapsed and nothing
happens.  The notification is consumed either way. -/
def SmartBulbThread.wake (t : SmartBulbThread) : SmartBulbThread :=
  if t.notified then { t.set_color t.color with notified := false } else t

/-- The most recent value written to the device, if any. -/
def SmartBulbThread.lastApplied (t : SmartBulbThread) : Option RGB :=
  t.applied.getLast?

/-- A hex digit character, as accepted by the character class `[0-9a-fA-F]`. -/
def isPyHexDigit (c : Char) : Bool :=
  ('0' ≤ c && c ≤ '9') || ('a' ≤ c && c ≤ 'f') || ('A' ≤ c && c ≤ 'F')

/-- `LightManager.is_valid_hex_color` (lines 151-156):
`re.match("^#[0-9a-fA-F]{6}$", s)` as a boolean.  Note the Python semantics of
`$` outside MULTILINE mode: it matches at the end of the string or just before
a single newline at the end of the string, so a trailing `"\n"` after the six
hex digits is also accepted by the source. -/
def is_valid_hex_color (s : String) : Bool :=
  match s.data with
  | [] => false
  | c :: rest =>
    c == '#' &&
    ((rest.length == 6 && rest.all isPyHexDigit) ||
     (rest.length == 7 && (rest.take 6).all isPyHexDigit &&
      rest.getLast? == some (Char.ofNat 10)))

/-- The numeric value of a hex digit character, `none` otherwise. -/
def hexVal (c : Char) : Option Nat :=
  if '0' ≤ c && c ≤ '9' then some (c.toNat - 48)
  else if 'a' ≤ c && c ≤ 'f' then some (c.toNat - 87)
  else if 'A' ≤ c && c ≤ 'F' then some (c.toNat - 55)
  else none

/-- Base-16 value of a nonempty run of hex digit characters. -/
def hexDigitsVal (cs : List Char) : Option Nat :=
  cs.foldl
    (fun acc c =>
      match acc, hexVal c with
      | some a, some v => some (a * 16 + v)
      | _, _ => none)
    (some 0)

/-- Core of `int(x, 16)`: a nonempty all-hex-digit string, else `ValueError`. -/
def pyIntHexCore (cs : List Char) : Except PyErr Int :=
  if cs.isEmpty then .error (.valueError "invalid literal for int with base 16")
  else
    match hexDigitsVal cs with
    | some n => .ok (Int.ofNat n)
    | none => .error (.valueError "invalid literal for int with base 16")

/-- `int(x, 16)` as used at the call sites of this file: an optional sign
followed by hex digits.  Python additionally strips surrounding whitespace and
accepts a `0x` prefix and interior underscores; none of those forms can reach
the call sites here, whose inputs are two-character slices of regex-validated
or generated hex strings. -/
def pyIntHex (cs : List Char) : Except PyErr Int :=
  match cs with
  | [] => .error (.valueError "invalid literal for int with base 16")
  | c :: rest =>
    if c == '-' then (pyIntHexCore rest).map (fun n => -n)
    else if c == '+' then pyIntHexCore rest
    else pyIntHexCore cs

/-- `LightManager.convert_from_hex` (lines 158-170): strip a leading `#`,
then parse the character slices `[0:2]`, `[2:4]`, `[4:6]` as base-16 ints. -/
def convert_from_hex (s : String) : Except PyErr RGB :=
  let cs := if s.data.head? == some '#' then s.data.drop 1 else s.data
  match pyIntHex (cs.take 2) with
  | .error e => .error e
  | .ok red =>
    match pyIntHex ((cs.drop 2).take 2) with
    | .error e => .error e
    | .ok green =>
      match pyIntHex ((cs.drop 4).take 2) with
      | .error e => .error e
      | .ok blue => .ok (red, green, blue)

/-- The uppercase hex digit character for a value below 16. -/
def hexDigitChar (n : Nat) : Char :=
  if n < 10 then Char.ofNat (48 + n) else Char.ofNat (55 + n)

/-- Hex digits of `n`, most significant first (fuel-structured division). -/
def toHexDigitsAux : Nat → Nat → List Char
  | 0, _ => []
  | fuel + 1, n =>
    if n < 16 then [hexDigitChar n]
    else toHexDigitsAux fuel (n / 16) ++ [hexDigitChar (n % 16)]

/-- Uppercase hex digits of a natural number (`"0"` for zero). -/
def toHexDigits (n : Nat) : List Char := toHexDigitsAux (n + 1) n

/-- `format(n, "02X")`: uppercase hex, zero-padded to a total width of two
(the sign counts toward the width, as in Python). -/
def format02X (n : Int) : List Char :=
  let body := toHexDigits n.natAbs
  if n < 0 then '-' :: body
  else if 2 ≤ body.length then body
  else '0' :: body

/-- A Python value handed to `str.format` at the two format call sites:
an int channel, the whole color tuple, or `None`. -/
inductive PyVal where
  | int (n : Int)
  | tuple (c : RGB)
  | noneV
deriving DecidableEq, Repr

/-- Message of the `TypeError` raised when a `{:02X}` placeholder is applied
to a tuple (the bug in `get_color_hex`). -/
def tupleFormatMsg : String := "unsupported format string passed to tuple.__format__"

/-- Formatting one `{:02X}` placeholder: only an int supports the numeric
format spec; a tuple or `None` raises `TypeError`. -/
def pyFormat02X : PyVal → Except PyErr (List Char)
  | .int n => .ok (format02X n)
  | .tuple _ => .error (.typeError tupleFormatMsg)
  | .noneV => .error (.typeError "unsupported format string passed to NoneType.__format__")

/-- Positional argument lookup of `str.format`; a missing replacement index
raises `IndexError`. -/
def pyGetArg (args : List PyVal) (i : Nat) : Except PyErr PyVal :=
  match args.get? i with
  | some a => .ok a
  | none => .error .indexError

/-- The template `"#{:02X}{:02X}{:02X}".format(args...)` shared by
`get_colors_json_hex` (line 303, called with the three unpacked channels) and
`get_color_hex` (line 216, called with a single tuple argument): three
auto-numbered placeholders, each formatting the next positional argument. -/
def formatHexTemplate (args : List PyVal) : Except PyErr String :=
  match pyGetArg args 0 with
  | .error e => .error e
  | .ok a0 =>
    match pyFormat02X a0 with
    | .error e => .error e
    | .ok s0 =>
      match pyGetArg args 1 with
      | .error e => .error e
      | .ok a1 =>
        match pyFormat02X a1 with
        | .error e => .error e
        | .ok s1 =>
          match pyGetArg args 2 with
          | .error e => .error e
          | .ok a2 =>
            match pyFormat02X a2 with
            | .error e => .error e
            | .ok s2 => .ok (String.mk ('#' :: (s0 ++ s1 ++ s2)))

/-- The hex rendering of one color in `get_colors_json_hex` (line 303):
`"#{:02X}{:02X}{:02X}".format(*color)`, i.e. the three channels unpacked. -/
def rgbToHexString (c : RGB) : Except PyErr String :=
  formatHexTemplate [PyVal.int c.1, PyVal.int c.2.1, PyVal.int c.2.2]

/-- Python `int()` truncation toward zero of a rational value.  The source
computes with IEEE doubles; every quantity reaching the claims in this file is
an integer of magnitude far below `2 ^ 53`, where double arithmetic is exact,
so exact rationals are a faithful model at those points. -/
def pyTrunc (q : ℚ) : Int :=
  if q < 0 then -(Int.floor (-q)) else Int.floor q

/-- `LightManager.interpolate_color` (lines 307-317): per-channel
`int(c1 + grade * (c2 - c1))`. -/
def interpolate_color (color1 color2 : RGB) (interpolationGrade : ℚ) : RGB :=
  let rDist : Int := color2.1 - color1.1
  let gDist : Int := color2.2.1 - color1.2.1
  let bDist : Int := color2.2.2 - color1.2.2
  (pyTrunc ((color1.1 : ℚ) + interpolationGrade * (rDist : ℚ)),
   pyTrunc ((color1.2.1 : ℚ) + interpolationGrade * (gDist : ℚ)),
   pyTrunc ((color1.2.2 : ℚ) + interpolationGrade * (bDist : ℚ)))

/-- The rational one half (the source's 0.5 default tick pause), given in
lowest terms directly so that kernel evaluation of concrete manager states
never needs rational normalization. -/
def halfQ : ℚ := ⟨1, 2, by norm_num, Nat.coprime_one_left 2⟩

/-- The state of one `LightManager` object (lines 87-332).  Thread objects
live inside the manager record; the rotation worker's locals are modelled
separately (`RotationWorker`), since they are locals of `rotation_worker`,
not attributes of the manager. -/
structure LightManager where
  bulb_params : List Dict
  is_running : Bool
  is_rotation_active : Bool
  rotation_speed : ℚ
  rotation_update_pause : ℚ
  rotation_clockwise : Bool
  bulb_colors : List RGB
  bulb_rotation_colors : List (Option RGB)
  bulbs_ready : Bool
  bulb_threads : List SmartBulbThread
deriving DecidableEq, Repr

/-- `LightManager.__init__` (lines 88-111): one thread per parameter dict,
one `(0, 0, 0)` cache entry per thread, rotation initially inactive with
speed 10, pause 0.5, clockwise. -/
def mkLightManager (bulbs : List Dict) : LightManager :=
  { bulb_params := bulbs, is_running := true, is_rotation_active := false,
    rotation_speed := 10, rotation_update_pause := halfQ,
    rotation_clockwise := true,
    bulb_colors := bulbs.map (fun _ => ((0, 0, 0) : RGB)),
    bulb_rotation_colors := [], bulbs_ready := false,
    bulb_threads := bulbs.map mkSmartBulbThread }

/-- Loop of `LightManager.find_bulb_index` (lines 143-149): first parameter
dict whose `"name"` value equals `name`; `k` is the position of the head of
the remaining list.  The source returns `self.bulb_params.index(bulb)` for
the first matching `bulb`; since equal dicts have equal `"name"` values, that
first occurrence index coincides with the iteration position `k`. -/
def findBulbIndexAux (q : String) : List Dict → Nat → Except PyErr Int
  | [], _ => .ok (-1)
  | p :: rest, k =>
    match dictGet p "name" with
    | .error e => .error e
    | .ok n => if n == q then .ok (Int.ofNat k) else findBulbIndexAux q rest (k + 1)

/-- `LightManager.find_bulb_index` (lines 143-149): case-sensitive name
lookup, `-1` on a miss. -/
def LightManager.find_bulb_index (m : LightManager) (q : String) : Except PyErr Int :=
  findBulbIndexAux q m.bulb_params 0

/-- The list comprehension `[b["Name"] for b in self.bulb_params]` of
`set_color` line 195: note the capitalized key `"Name"`, while the parameter
dicts carry the key `"name"`. -/
def namesUpperKey : List Dict → Except PyErr (List String)
  | [] => .ok []
  | b :: rest =>
    match dictGet b "Name" with
    | .error e => .error e
    | .ok n =>
      match namesUpperKey rest with
      | .error e => .error e
      | .ok ns => .ok (n :: ns)

/-- The thread loop of `set_color` (lines 204-211): find the first thread
whose parameter name equals `bulb_name`, call `change_color` on it and return
the success dict; fall through (`None`) when no thread matches. -/
def setColorLoop (q : String) (c : RGB) :
    List SmartBulbThread → Except PyErr (List SmartBulbThread × Option (SetResult RGB))
  | [] => .ok ([], none)
  | t :: rest =>
    match dictGet t.bulb_param "name" with
    | .error e => .error e
    | .ok n =>
      if n == q then .ok (t.change_color c :: rest, some (.success c q))
      else
        match setColorLoop q c rest with
        | .error e => .error e
        | .ok (rest2, r) => .ok (t :: rest2, r)

/-- `LightManager.set_color` (lines 190-211): on a miss build the error dict
(reading `b["Name"]` from every parameter dict); on a hit update the cached
color at the found index, then notify the matching thread and return the
success dict. -/
def LightManager.set_color (m : LightManager) (bulb_name : String) (color : RGB) :
    Except PyErr (LightManager × Option (SetResult RGB)) :=
  match m.find_bulb_index bulb_name with
  | .error e => .error e
  | .ok i =>
    if i == -1 then
      match namesUpperKey m.bulb_params with
      | .error e => .error e
      | .ok names =>
        .ok (m, some (.error
          ("bulb name does not exist, must be one of these: " ++
            String.intercalate ", " names) bulb_name))
    else
      match pyListSet m.bulb_colors i color with
      | .error e => .error e
      | .ok cs =>
        match setColorLoop bulb_name color m.bulb_threads with
        | .error e => .error e
        | .ok (ts, res) => .ok ({ m with bulb_colors := cs, bulb_threads := ts }, res)

/-- `LightManager.set_color_hex` (lines 172-184): reject strings failing
`is_valid_hex_color` with the literal reason, else decode and forward. -/
def LightManager.set_color_hex (m : LightManager) (bulb_name : String)
    (color_string : String) : Except PyErr (LightManager × Option (SetResult RGB)) :=
  if is_valid_hex_color color_string then
    match convert_from_hex color_string with
    | .error e => .error e
    | .ok color => m.set_color bulb_name color
  else
    .ok (m, some (.error "color must be hex string like #C0C0C0" bulb_name))

/-- The thread loop of `get_color` (lines 226-230): first thread whose
parameter name equals the queried name. -/
def findBulbThread (q : String) : List SmartBulbThread → Except PyErr (Option SmartBulbThread)
  | [] => .ok none
  | t :: rest =>
    match dictGet t.bulb_param "name" with
    | .error e => .error e
    | .ok n => if n == q then .ok (some t) else findBulbThread q rest

/-- `LightManager.get_color` (lines 224-230): refresh the cache entry from the
matching thread's live color and return it; fall through (`None`) when no
thread matches. -/
def LightManager.get_color (m : LightManager) (bulb_name : String) :
    Except PyErr (LightManager × Option RGB) :=
  match findBulbThread bulb_name m.bulb_threads with
  | .error e => .error e
  | .ok none => .ok (m, none)
  | .ok (some t) =>
    match m.find_bulb_index bulb_name with
    | .error e => .error e
    | .ok i =>
      match pyListSet m.bulb_colors i t.color with
      | .error e => .error e
      | .ok cs =>
        match pyListGet cs i with
        | .error e => .error e
        | .ok c => .ok ({ m with bulb_colors := cs }, some c)

/-- `LightManager.get_color_hex` (lines 213-217): fetch the color and apply
`"#{:02X}{:02X}{:02X}".format(color)` — the tuple (or `None`) is passed as a
single positional argument, without unpacking. -/
def LightManager.get_color_hex (m : LightManager) (bulb_name : String) :
    Except PyErr (LightManager × String) :=
  match m.get_color bulb_name with
  | .error e => .error e
  | .ok (m2, copt) =>
    let arg : PyVal :=
      match copt with
      | some c => .tuple c
      | none => .noneV
    match formatHexTemplate [arg] with
    | .error e => .error e
    | .ok s => .ok (m2, s)

/-- The snapshot loop of `rotate` (lines 236-241): for each parameter dict,
`get_color` its name (this refreshes the cache) and append the result to
`bulb_rotation_colors`. -/
def rotateSnapshotLoop :
    LightManager → List Dict → List (Option RGB) →
      Except PyErr (LightManager × List (Option RGB))
  | m, [], acc => .ok (m, acc)
  | m, p :: rest, acc =>
    match dictGet p "name" with
    | .error e => .error e
    | .ok bulbname =>
      match m.get_color bulbname with
      | .error e => .error e
      | .ok (m2, c) => rotateSnapshotLoop m2 rest (acc ++ [c])

/-- `LightManager.rotate` (lines 232-245): clear and re-fill
`bulb_rotation_colors` from the workers' current colors, store the rotation
parameters, and set `is_rotation_active`.  No thread is notified. -/
def LightManager.rotate (m : LightManager) (speed update_pause : ℚ)
    (clockwise : Bool) : Except PyErr LightManager :=
  match rotateSnapshotLoop { m with bulb_rotation_colors := [] } m.bulb_params [] with
  | .error e => .error e
  | .ok (m2, ring) =>
    .ok { m2 with bulb_rotation_colors := ring, rotation_speed := speed,
                  rotation_update_pause := update_pause,
                  rotation_clockwise := clockwise, is_rotation_active := true }

/-- `LightManager.stop` (lines 279-280). -/
def LightManager.stop (m : LightManager) : LightManager :=
  { m with is_rotation_active := false }

/-- The local variables of `LightManager.rotation_worker` (lines 247-255):
`cycle` (initialized to 0 when the worker thread starts) and
`original_colors` (assigned only when a pass begins at `cycle == 0`).
They live in the worker's stack frame, not on the manager. -/
structure RotationWorker where
  cycle : ℚ
  original_colors : List (Option RGB)
deriving DecidableEq, Repr

/-- A `LightManager` together with its rotation worker's locals. -/
structure LightSystem where
  mgr : LightManager
  rotw : RotationWorker
deriving DecidableEq, Repr

/-- `rotation_worker` locals at thread start (line 248). -/
def mkRotationWorker : RotationWorker := { cycle := 0, original_colors := [] }

/-- `LightSystem.rotate`: `rotate` is a manager method; the worker locals are
untouched by it. -/
def LightSystem.rotate (s : LightSystem) (speed update_pause : ℚ)
    (clockwise : Bool) : Except PyErr LightSystem :=
  match s.mgr.rotate speed update_pause clockwise with
  | .error e => .error e
  | .ok m => .ok { s with mgr := m }

/-- Checked division, `ZeroDivisionError` on a zero divisor as in Python. -/
def pyDiv (a b : ℚ) : Except PyErr ℚ :=
  if b = 0 then .error .zeroDivisionError else .ok (a / b)

/-- Subscripting a snapshot entry inside `interpolate_color`: the entries of
`original_colors` are colors, or `None` when `get_color` fell through during
the snapshot; subscripting `None` raises `TypeError`. -/
def subscriptColor : Option RGB → Except PyErr RGB
  | some c => .ok c
  | none => .error (.typeError "NoneType object is not subscriptable")

/-- The per-bulb loop of one active `rotation_worker` iteration
(lines 257-266): for each index, interpolate between the snapshot entry and
its neighbor in the configured direction and `set_color` the result
(discarding the returned dict). -/
def rotationApplyLoop (orig : List (Option RGB)) (percent : ℚ) :
    LightManager → List Nat → Except PyErr LightManager
  | m, [] => .ok m
  | m, i :: rest =>
    let n := m.bulb_params.length
    let next_idx : Int :=
      if m.rotation_clockwise then (Int.ofNat (i + 1)).emod (n : Int)
      else (Int.ofNat i - 1).emod (n : Int)
    match pyListGet orig (Int.ofNat i) with
    | .error e => .error e
    | .ok c1 =>
      match pyListGet orig next_idx with
      | .error e => .error e
      | .ok c2 =>
        match subscriptColor c1 with
        | .error e => .error e
        | .ok c1v =>
          match subscriptColor c2 with
          | .error e => .error e
          | .ok c2v =>
            match pyListGet m.bulb_params (Int.ofNat i) with
            | .error e => .error e
            | .ok p =>
              match dictGet p "name" with
              | .error e => .error e
              | .ok bulbname =>
                match m.set_color bulbname (interpolate_color c1v c2v percent) with
                | .error e => .error e
                | .ok (m2, _) => rotationApplyLoop orig percent m2 rest

/-- The end-of-pass ring advance of `rotation_worker` (lines 267-273). -/
def ringAdvance (m : LightManager) : Except PyErr LightManager :=
  if m.rotation_clockwise then
    match pyListGet m.bulb_rotation_colors 0 with
    | .error e => .error e
    | .ok first_item =>
      .ok { m with bulb_rotation_colors :=
              m.bulb_rotation_colors.drop 1 ++ [first_item] }
  else
    match pyListGet m.bulb_rotation_colors (-1) with
    | .error e => .error e
    | .ok last_item =>
      .ok { m with bulb_rotation_colors :=
              last_item :: m.bulb_rotation_colors.dropLast }

/-- One iteration of the `rotation_worker` loop body (lines 249-274), minus
the final sleep.  When rotation is inactive the iteration does nothing. -/
def LightSystem.rotation_worker_step (s : LightSystem) : Except PyErr LightSystem :=
  if s.mgr.is_rotation_active then
    let cycle0 : ℚ :=
      if s.rotw.cycle = 0 then s.mgr.rotation_speed else s.rotw.cycle
    let orig : List (Option RGB) :=
      if s.rotw.cycle = 0 then s.mgr.bulb_rotation_colors else s.rotw.original_colors
    match pyDiv (s.mgr.rotation_speed - cycle0) s.mgr.rotation_speed with
    | .error e => .error e
    | .ok cycle_percent =>
      let cycle1 := cycle0 - 1
      match rotationApplyLoop orig cycle_percent s.mgr
          (List.range s.mgr.bulb_params.length) with
      | .error e => .error e
      | .ok m2 =>
        if cycle1 = 0 then
          match ringAdvance m2 with
          | .error e => .error e
          | .ok m3 => .ok { mgr := m3, rotw := { cycle := cycle1, original_colors := orig } }
        else
          .ok { mgr := m2, rotw := { cycle := cycle1, original_colors := orig } }
  else .ok s

/-- The state of one `OutletDeviceThread` object (lines 335-399); the same
shallow treatment as `SmartBulbThread`, with a boolean device state and its
trace of `turn_on`/`turn_off` calls. -/
structure OutletThread where
  outlet_param : Dict
  state : Bool
  is_running : Bool
  notified : Bool
  applied : List Bool
deriving DecidableEq, Repr

/-- `OutletDeviceThread.__init__`: initial state `False`. -/
def mkOutletThread (p : Dict) : OutletThread :=
  { outlet_param := p, state := false, is_running := true,
    notified := false, applied := [] }

/-- `OutletDeviceThread.change_state` (lines 352-356): overwrite the single
slot and notify the worker. -/
def OutletThread.change_state (t : OutletThread) (st : Bool) : OutletThread :=
  { t with state := st, notified := true }

/-- One wake of the outlet worker loop (lines 394-399). -/
def OutletThread.wake (t : OutletThread) : OutletThread :=
  if t.notified then
    { t with notified := false, applied := t.applied ++ [t.state] }
  else t

/-- The state of one `OutletManager` object (lines 401-464). -/
structure OutletManager where
  outlet_param : List Dict
  is_running : Bool
  outlet_threads : List OutletThread
deriving DecidableEq, Repr

/-- `OutletManager.__init__` (lines 402-412). -/
def mkOutletManager (outlets : List Dict) : OutletManager :=
  { outlet_param := outlets, is_running := true,
    outlet_threads := outlets.map mkOutletThread }

/-- Loop of `OutletManager.find_outlet_index` (lines 433-438):
case-insensitive comparison of the `"name"` values.  As with the bulbs, the
`self.outlet_param.index(outlet)` of the source equals the iteration
position of the first match. -/
def findOutletIndexAux (q : String) : List Dict → Nat → Except PyErr Int
  | [], _ => .ok (-1)
  | p :: rest, k =>
    match dictGet p "name" with
    | .error e => .error e
    | .ok n =>
      if pyLower n == pyLower q then .ok (Int.ofNat k)
      else findOutletIndexAux q rest (k + 1)

/-- `OutletManager.find_outlet_index` (lines 433-438). -/
def OutletManager.find_outlet_index (m : OutletManager) (q : String) : Except PyErr Int :=
  findOutletIndexAux q m.outlet_param 0

/-- The thread loop of `set_state`/`get_state`: first thread whose parameter
name matches case-insensitively. -/
def findOutletThread (q : String) : List OutletThread → Except PyErr (Option OutletThread)
  | [] => .ok none
  | t :: rest =>
    match dictGet t.outlet_param "name" with
    | .error e => .error e
    | .ok n =>
      if pyLower n == pyLower q then .ok (some t) else findOutletThread q rest

/-- The thread loop of `set_state` (lines 424-431), returning the updated
thread list and the success dict, or `None` on fall-through. -/
def setStateLoop (q : String) (st : Bool) :
    List OutletThread → Except PyErr (List OutletThread × Option (SetResult Bool))
  | [] => .ok ([], none)
  | t :: rest =>
    match dictGet t.outlet_param "name" with
    | .error e => .error e
    | .ok n =>
      if pyLower n == pyLower q then
        .ok (t.change_state st :: rest, some (.success st q))
      else
        match setStateLoop q st rest with
        | .error e => .error e
        | .ok (rest2, r) => .ok (t :: rest2, r)

/-- `OutletManager.set_state` (lines 414-431): on a miss return the fixed
error dict (reason `"outlet name not found"`, no list of valid names); on a
hit notify the matching thread and return the success dict. -/
def OutletManager.set_state (m : OutletManager) (outlet_name : String) (st : Bool) :
    Except PyErr (OutletManager × Option (SetResult Bool)) :=
  match m.find_outlet_index outlet_name with
  | .error e => .error e
  | .ok i =>
    if i == -1 then
      .ok (m, some (.error "outlet name not found" outlet_name))
    else
      match setStateLoop outlet_name st m.outlet_threads with
      | .error e => .error e
      | .ok (ts, res) => .ok ({ m with outlet_threads := ts }, res)

/-- `OutletManager.get_state` (lines 440-455): find the matching thread; its
inner `i == -1` branch re-runs `find_outlet_index` under the same
case-insensitive match that just succeeded.  Falls through (`None`) when no
thread matches. -/
def OutletManager.get_state (m : OutletManager) (outlet_name : String) :
    Except PyErr (Option (SetResult Bool)) :=
  match findOutletThread outlet_name m.outlet_threads with
  | .error e => .error e
  | .ok none => .ok none
  | .ok (some t) =>
    match m.find_outlet_index outlet_name with
    | .error e => .error e
    | .ok i =>
      if i == -1 then .ok (some (.error "outlet name not found" outlet_name))
      else .ok (some (.success t.state outlet_name))

/-- Index of the first parameter dict whose `"name"` equals `q` (the pure
shadow of `findBulbIndexAux`). -/
def firstNameIdx : List Dict → String → Option Nat
  | [], _ => none
  | p :: rest, q =>
    if dictName p = some q then some 0 else (firstNameIdx rest q).map (· + 1)

/-- Index of the first parameter dict whose `"name"` matches `q`
case-insensitively (the pure shadow of `findOutletIndexAux`). -/
def firstNameIdxCI : List Dict → String → Option Nat
  | [], _ => none
  | p :: rest, q =>
    if (dictName p).map pyLower = some (pyLower q) then some 0
    else (firstNameIdxCI rest q).map (· + 1)

/-- Current color of the first bulb thread registered under `q`. -/
def firstThreadColor (ts : List SmartBulbThread) (q : String) : Option RGB :=
  (ts.find? (fun t => dictName t.bulb_param == some q)).map (fun t => t.color)

/-- States reachable from `LightManager.__init__`: the thread list mirrors the
parameter list, the cache has one entry per parameter, and every parameter
dict carries a `"name"` key. -/
def LightManager.WF (m : LightManager) : Prop :=
  m.bulb_threads.map SmartBulbThread.bulb_param = m.bulb_params ∧
  m.bulb_colors.length = m.bulb_params.length ∧
  ∀ p ∈ m.bulb_params, (dictName p).isSome = true

/-- States reachable from `OutletManager.__init__`. -/
def OutletManager.WF (m : OutletManager) : Prop :=
  m.outlet_threads.map OutletThread.outlet_param = m.outlet_param ∧
  ∀ p ∈ m.outlet_param, (dictName p).isSome = true

/-- Modelled from the spec words, for refinement comparison only: a string
matching the bare pattern `#[0-9A-Fa-f]{6}` in full — a hash followed by
exactly six hex digits and nothing else. -/
def specHexPattern (s : String) : Bool :=
  match s.data with
  | [] => false
  | c :: rest => c == '#' && rest.length == 6 && rest.all isPyHexDigit

/-- Sample bulb parameter dict used by concrete witnesses. -/
def bulbParamA : Dict :=
  [("name", "A"), ("id", "1"), ("ip", "10.0.0.2"), ("key", "k"), ("version", "3.3")]

/-- Sample one-bulb manager used by concrete witnesses. -/
def mgrA : LightManager := mkLightManager [bulbParamA]

/-- Sample outlet parameter dict used by concrete witnesses. -/
def outletParamA : Dict :=
  [("name", "A"), ("id", "7"), ("ip", "10.0.0.3"), ("key", "k2"), ("version", "3.3")]

/-- Sample one-outlet manager used by concrete witnesses. -/
def omA : OutletManager := mkOutletManager [outletParamA]

/-- The string `"#AABBCC\n"`: six hex digits with a trailing newline. -/
def newlineHex : String :=
  String.mk (['#', 'A', 'A', 'B', 'B', 'C', 'C'] ++ [Char.ofNat 10])

/-- Sample system whose rotation worker is mid-pass (its local `cycle` is 3),
as after a `stop` during a pass. -/
def sysCycle3 : LightSystem :=
  { mgr := mgrA, rotw := { cycle := 3, original_colors := [] } }

/-- Whether an exceptional computation returned normally. -/
def exceptIsOk {ε α : Type} : Except ε α → Bool
  | .ok _ => true
  | .error _ => false

/-!
## Helper lemmas
-/

/-- `dictName` and `dictGet` agree on the key `"name"`. -/
theorem dictName_eq_some_iff (p : Dict) (n : String) :
    dictName p = some n ↔ dictGet p "name" = .ok n := by
  unfold dictName
  cases h : dictGet p "name" <;> simp

/-- A present `"name"` key yields some value through `dictGet`. -/
theorem dictGet_name_of_isSome (p : Dict) (h : (dictName p).isSome = true) :
    ∃ n, dictGet p "name" = .ok n ∧ dictName p = some n := by
  cases hn : dictName p with
  | none => rw [hn] at h; simp at h
  | some n => exact ⟨n, (dictName_eq_some_iff p n).mp hn, rfl⟩

/-- `dictGet` fails exactly with `KeyError` on the looked-up key. -/
theorem dictGet_error (p : Dict) (k : String) (h : dictHasKey p k = false) :
    dictGet p k = .error (.keyError k) := by
  unfold dictHasKey at h
  unfold dictGet at h ⊢
  cases hf : List.find? (fun kv => kv.1 == k) p with
  | none => rfl
  | some kv => rw [hf] at h; simp at h

/-- The first-match index is within the list. -/
theorem firstNameIdx_lt_length (ps : List Dict) (q : String) (j : Nat)
    (h : firstNameIdx ps q = some j) : j < ps.length := by
  induction ps generalizing j with
  | nil => simp [firstNameIdx] at h
  | cons p rest ih =>
    unfold firstNameIdx at h
    by_cases hp : dictName p = some q
    · simp [hp] at h
      simp [List.length_cons]
      omega
    · simp [hp] at h
      obtain ⟨j0, hj0, rfl⟩ := h
      have := ih j0 hj0
      simp [List.length_cons]
      omega

/-- A member carrying the queried name forces a first-match index. -/
theorem firstNameIdx_isSome_of_mem (ps : List Dict) (q : String) (p : Dict)
    (hmem : p ∈ ps) (hname : dictName p = some q) :
    (firstNameIdx ps q).isSome = true := by
  induction ps with
  | nil => simp at hmem
  | cons a rest ih =>
    unfold firstNameIdx
    by_cases ha : dictName a = some q
    · simp [ha]
    · simp [ha]
      rcases List.mem_cons.mp hmem with rfl | hmem2
      · exact absurd hname ha
      · rcases Option.isSome_iff_exists.mp (ih hmem2) with ⟨j, hj⟩
        simp [hj]

/-- No first-match index means no member carries the queried name. -/
theorem firstNameIdx_eq_none_iff (ps : List Dict) (q : String) :
    firstNameIdx ps q = none ↔ ∀ p ∈ ps, dictName p ≠ some q := by
  induction ps with
  | nil => simp [firstNameIdx]
  | cons a rest ih =>
    unfold firstNameIdx
    by_cases ha : dictName a = some q <;> simp [ha, ih]

/-- `find_bulb_index`'s loop computes the first-match index (as an `Int`),
or `-1`, provided every parameter dict carries a `"name"` key. -/
theorem findBulbIndexAux_spec (q : String) (ps : List Dict) (k : Nat)
    (hn : ∀ p ∈ ps, (dictName p).isSome = true) :
    findBulbIndexAux q ps k = .ok
      (match firstNameIdx ps q with
        | some j => Int.ofNat (k + j)
        | none => -1) := by
  induction ps generalizing k with
  | nil => simp [findBulbIndexAux, firstNameIdx]
  | cons p rest ih =>
    obtain ⟨n, hget, hname⟩ := dictGet_name_of_isSome p (hn p (by simp))
    unfold findBulbIndexAux firstNameIdx
    by_cases hq : n = q
    · subst hq
      simp [hget, hname]
    · have hne : dictName p ≠ some q := by rw [hname]; simp [hq]
      rw [ih (k + 1) (fun p hp => hn p (by simp [hp]))] at *
      cases hf : firstNameIdx rest q with
      | none => simp [hget, hq, hne, hf]
      | some j =>
        simp [hget, hq, hne, hf]
        omega

/-- The first case-insensitive match index is within the list. -/
theorem firstNameIdxCI_lt_length (ps : List Dict) (q : String) (j : Nat)
    (h : firstNameIdxCI ps q = some j) : j < ps.length := by
  induction ps generalizing j with
  | nil => simp [firstNameIdxCI] at h
  | cons p rest ih =>
    unfold firstNameIdxCI at h
    by_cases hp : (dictName p).map pyLower = some (pyLower q)
    · simp [hp] at h
      simp [List.length_cons]
      omega
    · simp [hp] at h
      obtain ⟨j0, hj0, rfl⟩ := h
      have := ih j0 hj0
      simp [List.length_cons]
      omega

/-- A member carrying a case-variant of the queried name forces a first
case-insensitive match index. -/
theorem firstNameIdxCI_isSome_of_mem (ps : List Dict) (q : String) (p : Dict)
    (r : String) (hmem : p ∈ ps) (hname : dictName p = some r)
    (hlow : pyLower r = pyLower q) :
    (firstNameIdxCI ps q).isSome = true := by
  induction ps with
  | nil => simp at hmem
  | cons a rest ih =>
    unfold firstNameIdxCI
    by_cases ha : (dictName a).map pyLower = some (pyLower q)
    · simp [ha]
    · simp [ha]
      rcases List.mem_cons.mp hmem with rfl | hmem2
      · exact absurd (by rw [hname]; simp [hlow]) ha
      · rcases Option.isSome_iff_exists.mp (ih hmem2) with ⟨j, hj⟩
        simp [hj]

/-- No first case-insensitive match index means no member matches. -/
theorem firstNameIdxCI_eq_none_iff (ps : List Dict) (q : String) :
    firstNameIdxCI ps q = none ↔
      ∀ p ∈ ps, (dictName p).map pyLower ≠ some (pyLower q) := by
  induction ps with
  | nil => simp [firstNameIdxCI]
  | cons a rest ih =>
    unfold firstNameIdxCI
    by_cases ha : (dictName a).map pyLower = some (pyLower q)
    · rw [if_pos ha]
      constructor
      · intro h; simp at h
      · intro h; exact absurd ha (h a (by simp))
    · rw [if_neg ha]
      constructor
      · intro h
        have h2 : firstNameIdxCI rest q = none := Option.map_eq_none'.mp h
        intro p hp
        rcases List.mem_cons.mp hp with rfl | hp2
        · exact ha
        · exact ih.mp h2 p hp2
      · intro h
        have h2 : firstNameIdxCI rest q = none :=
          ih.mpr (fun p hp => h p (by simp [hp]))
        rw [h2]
        rfl

/-- `find_outlet_index`'s loop computes the first case-insensitive match
index (as an `Int`), or `-1`. -/
theorem findOutletIndexAux_spec (q : String) (ps : List Dict) (k : Nat)
    (hn : ∀ p ∈ ps, (dictName p).isSome = true) :
    findOutletIndexAux q ps k = .ok
      (match firstNameIdxCI ps q with
        | some j => Int.ofNat (k + j)
        | none => -1) := by
  induction ps generalizing k with
  | nil => simp [findOutletIndexAux, firstNameIdxCI]
  | cons p rest ih =>
    obtain ⟨n, hget, hname⟩ := dictGet_name_of_isSome p (hn p (by simp))
    unfold findOutletIndexAux firstNameIdxCI
    by_cases hq : pyLower n = pyLower q
    · simp [hget, hname, hq]
    · have hne : (dictName p).map pyLower ≠ some (pyLower q) := by
        rw [hname]; simp [hq]
      rw [ih (k + 1) (fun p hp => hn p (by simp [hp]))] at *
      cases hf : firstNameIdxCI rest q with
      | none => simp [hget, hq, hne, hf]
      | some j =>
        simp [hget, hq, hne, hf]
        omega

/-- `set_color`'s thread loop falls through when no thread name matches. -/
theorem setColorLoop_none (q : String) (c : RGB) (ts : List SmartBulbThread)
    (hn : ∀ t ∈ ts, (dictName t.bulb_param).isSome = true)
    (h0 : firstNameIdx (ts.map SmartBulbThread.bulb_param) q = none) :
    setColorLoop q c ts = .ok (ts, none) := by
  induction ts with
  | nil => rfl
  | cons t rest ih =>
    obtain ⟨n, hget, hname⟩ := dictGet_name_of_isSome t.bulb_param (hn t (by simp))
    rw [List.map_cons] at h0
    unfold firstNameIdx at h0
    by_cases hq : dictName t.bulb_param = some q
    · simp [hq] at h0
    · have hne : n ≠ q := fun hcontra => hq (hcontra ▸ hname)
      simp only [if_neg hq, Option.map_eq_none'] at h0
      unfold setColorLoop
      rw [hget]
      simp only [beq_iff_eq, hne, if_neg, ite_false]
      rw [ih (fun t ht => hn t (by simp [ht])) h0]

/-- `set_color`'s thread loop notifies the first matching thread and returns
the success dict. -/
theorem setColorLoop_found (q : String) (c : RGB) (ts : List SmartBulbThread)
    (j : Nat) (hn : ∀ t ∈ ts, (dictName t.bulb_param).isSome = true)
    (hj : firstNameIdx (ts.map SmartBulbThread.bulb_param) q = some j) :
    ∃ t, ts.get? j = some t ∧
      setColorLoop q c ts =
        .ok (ts.set j (t.change_color c), some (.success c q)) := by
  induction ts generalizing j with
  | nil => simp [firstNameIdx] at hj
  | cons t rest ih =>
    obtain ⟨n, hget, hname⟩ := dictGet_name_of_isSome t.bulb_param (hn t (by simp))
    rw [List.map_cons] at hj
    unfold firstNameIdx at hj
    by_cases hq : dictName t.bulb_param = some q
    · simp [hq] at hj
      subst hj
      have hnq : n = q := by
        rw [hq] at hname
        exact (Option.some.inj hname).symm
      refine ⟨t, rfl, ?_⟩
      unfold setColorLoop
      rw [hget]
      simp [hnq]
    · have hne : n ≠ q := fun hcontra => hq (hcontra ▸ hname)
      simp only [if_neg hq, Option.map_eq_some'] at hj
      obtain ⟨j0, hj0, hj1⟩ := hj
      subst hj1
      obtain ⟨t0, hget0, hloop⟩ := ih j0 (fun t ht => hn t (by simp [ht])) hj0
      refine ⟨t0, by simpa using hget0, ?_⟩
      unfold setColorLoop
      rw [hget]
      simp [hne, hloop]

/-- `get_color`'s thread loop falls through when no thread name matches. -/
theorem findBulbThread_none (q : String) (ts : List SmartBulbThread)
    (hn : ∀ t ∈ ts, (dictName t.bulb_param).isSome = true)
    (h0 : firstNameIdx (ts.map SmartBulbThread.bulb_param) q = none) :
    findBulbThread q ts = .ok none := by
  induction ts with
  | nil => rfl
  | cons t rest ih =>
    obtain ⟨n, hget, hname⟩ := dictGet_name_of_isSome t.bulb_param (hn t (by simp))
    rw [List.map_cons] at h0
    unfold firstNameIdx at h0
    by_cases hq : dictName t.bulb_param = some q
    · simp [hq] at h0
    · have hne : n ≠ q := fun hcontra => hq (hcontra ▸ hname)
      simp only [if_neg hq, Option.map_eq_none'] at h0
      unfold findBulbThread
      rw [hget]
      simp only [beq_iff_eq, hne, if_neg, ite_false]
      exact ih (fun t ht => hn t (by simp [ht])) h0

/-- `get_color`'s thread loop returns the first matching thread. -/
theorem findBulbThread_found (q : String) (ts : List SmartBulbThread) (j : Nat)
    (hn : ∀ t ∈ ts, (dictName t.bulb_param).isSome = true)
    (hj : firstNameIdx (ts.map SmartBulbThread.bulb_param) q = some j) :
    ∃ t, ts.get? j = some t ∧ dictName t.bulb_param = some q ∧
      findBulbThread q ts = .ok (some t) ∧
      firstThreadColor ts q = some t.color := by
  induction ts generalizing j with
  | nil => simp [firstNameIdx] at hj
  | cons t rest ih =>
    obtain ⟨n, hget, hname⟩ := dictGet_name_of_isSome t.bulb_param (hn t (by simp))
    rw [List.map_cons] at hj
    unfold firstNameIdx at hj
    by_cases hq : dictName t.bulb_param = some q
    · simp [hq] at hj
      subst hj
      have hnq : n = q := by
        rw [hq] at hname
        exact (Option.some.inj hname).symm
      refine ⟨t, rfl, hq, ?_, ?_⟩
      · unfold findBulbThread
        rw [hget]
        simp [hnq]
      · unfold firstThreadColor
        simp [List.find?, hq]
    · have hne : n ≠ q := fun hcontra => hq (hcontra ▸ hname)
      simp only [if_neg hq, Option.map_eq_some'] at hj
      obtain ⟨j0, hj0, hj1⟩ := hj
      subst hj1
      obtain ⟨t0, hget0, hname0, hfind0, hcol0⟩ :=
        ih j0 (fun t ht => hn t (by simp [ht])) hj0
      refine ⟨t0, by simpa using hget0, hname0, ?_, ?_⟩
      · unfold findBulbThread
        rw [hget]
        simp [hne, hfind0]
      · unfold firstThreadColor at hcol0 ⊢
        have hpt : (dictName t.bulb_param == some q) = false := by
          simp [hq]
        simp [List.find?, hpt, hcol0]

/-- `set_state`'s thread loop falls through when no thread name matches
case-insensitively. -/
theorem setStateLoop_none (q : String) (st : Bool) (ts : List OutletThread)
    (hn : ∀ t ∈ ts, (dictName t.outlet_param).isSome = true)
    (h0 : firstNameIdxCI (ts.map OutletThread.outlet_param) q = none) :
    setStateLoop q st ts = .ok (ts, none) := by
  induction ts with
  | nil => rfl
  | cons t rest ih =>
    obtain ⟨n, hget, hname⟩ := dictGet_name_of_isSome t.outlet_param (hn t (by simp))
    rw [List.map_cons] at h0
    unfold firstNameIdxCI at h0
    by_cases hq : (dictName t.outlet_param).map pyLower = some (pyLower q)
    · simp [hq] at h0
    · have hne : pyLower n ≠ pyLower q := by
        intro hcontra
        exact hq (by rw [hname]; simp [hcontra])
      simp only [if_neg hq, Option.map_eq_none'] at h0
      unfold setStateLoop
      rw [hget]
      simp only [beq_iff_eq, hne, if_neg, ite_false]
      rw [ih (fun t ht => hn t (by simp [ht])) h0]

/-- `set_state`'s thread loop notifies the first case-insensitive match and
returns the success dict. -/
theorem setStateLoop_found (q : String) (st : Bool) (ts : List OutletThread)
    (j : Nat) (hn : ∀ t ∈ ts, (dictName t.outlet_param).isSome = true)
    (hj : firstNameIdxCI (ts.map OutletThread.outlet_param) q = some j) :
    ∃ t, ts.get? j = some t ∧
      setStateLoop q st ts =
        .ok (ts.set j (t.change_state st), some (.success st q)) := by
  induction ts generalizing j with
  | nil => simp [firstNameIdxCI] at hj
  | cons t rest ih =>
    obtain ⟨n, hget, hname⟩ := dictGet_name_of_isSome t.outlet_param (hn t (by simp))
    rw [List.map_cons] at hj
    unfold firstNameIdxCI at hj
    by_cases hq : (dictName t.outlet_param).map pyLower = some (pyLower q)
    · rw [if_pos hq] at hj
      obtain rfl : (0 : Nat) = j := Option.some.inj hj
      have hnq : pyLower n = pyLower q := by
        rw [hname] at hq
        simpa using hq
      refine ⟨t, rfl, ?_⟩
      unfold setStateLoop
      rw [hget]
      simp [hnq]
    · have hne : pyLower n ≠ pyLower q := by
        intro hcontra
        exact hq (by rw [hname]; simp [hcontra])
      rw [if_neg hq] at hj
      simp only [Option.map_eq_some'] at hj
      obtain ⟨j0, hj0, hj1⟩ := hj
      subst hj1
      obtain ⟨t0, hget0, hloop⟩ := ih j0 (fun t ht => hn t (by simp [ht])) hj0
      refine ⟨t0, by simpa using hget0, ?_⟩
      unfold setStateLoop
      rw [hget]
      simp [hne, hloop]

/-- `get_state`'s thread loop falls through when no thread name matches
case-insensitively. -/
theorem findOutletThread_none (q : String) (ts : List OutletThread)
    (hn : ∀ t ∈ ts, (dictName t.outlet_param).isSome = true)
    (h0 : firstNameIdxCI (ts.map OutletThread.outlet_param) q = none) :
    findOutletThread q ts = .ok none := by
  induction ts with
  | nil => rfl
  | cons t rest ih =>
    obtain ⟨n, hget, hname⟩ := dictGet_name_of_isSome t.outlet_param (hn t (by simp))
    rw [List.map_cons] at h0
    unfold firstNameIdxCI at h0
    by_cases hq : (dictName t.outlet_param).map pyLower = some (pyLower q)
    · simp [hq] at h0
    · have hne : pyLower n ≠ pyLower q := by
        intro hcontra
        exact hq (by rw [hname]; simp [hcontra])
      simp only [if_neg hq, Option.map_eq_none'] at h0
      unfold findOutletThread
      rw [hget]
      simp only [beq_iff_eq, hne, if_neg, ite_false]
      exact ih (fun t ht => hn t (by simp [ht])) h0

/-- `get_state`'s thread loop returns the first case-insensitive match. -/
theorem findOutletThread_found (q : String) (ts : List OutletThread) (j : Nat)
    (hn : ∀ t ∈ ts, (dictName t.outlet_param).isSome = true)
    (hj : firstNameIdxCI (ts.map OutletThread.outlet_param) q = some j) :
    ∃ t, ts.get? j = some t ∧
      (dictName t.outlet_param).map pyLower = some (pyLower q) ∧
      findOutletThread q ts = .ok (some t) := by
  induction ts generalizing j with
  | nil => simp [firstNameIdxCI] at hj
  | cons t rest ih =>
    obtain ⟨n, hget, hname⟩ := dictGet_name_of_isSome t.outlet_param (hn t (by simp))
    rw [List.map_cons] at hj
    unfold firstNameIdxCI at hj
    by_cases hq : (dictName t.outlet_param).map pyLower = some (pyLower q)
    · rw [if_pos hq] at hj
      obtain rfl : (0 : Nat) = j := Option.some.inj hj
      have hnq : pyLower n = pyLower q := by
        rw [hname] at hq
        simpa using hq
      refine ⟨t, rfl, hq, ?_⟩
      unfold findOutletThread
      rw [hget]
      simp [hnq]
    · have hne : pyLower n ≠ pyLower q := by
        intro hcontra
        exact hq (by rw [hname]; simp [hcontra])
      rw [if_neg hq] at hj
      simp only [Option.map_eq_some'] at hj
      obtain ⟨j0, hj0, hj1⟩ := hj
      subst hj1
      obtain ⟨t0, hget0, hname0, hfind0⟩ :=
        ih j0 (fun t ht => hn t (by simp [ht])) hj0
      refine ⟨t0, by simpa using hget0, hname0, ?_⟩
      unfold findOutletThread
      rw [hget]
      simp [hne, hfind0]

/-- Setting a valid nonnegative Python index succeeds. -/
theorem pyListSet_ok {α : Type} (l : List α) (j : Nat) (a : α)
    (h : j < l.length) : pyListSet l (Int.ofNat j) a = .ok (l.set j a) := by
  unfold pyListSet pyIdx
  have h0 : (0 : Int) ≤ Int.ofNat j := Int.ofNat_nonneg j
  have h1 : Int.ofNat j < (l.length : Int) := by
    simp only [Int.ofNat_eq_natCast]
    exact_mod_cast h
  simp [h0, h1, h]

/-- Reading back a freshly set entry yields the stored value. -/
theorem pyListGet_set_self {α : Type} (l : List α) (j : Nat) (a : α)
    (h : j < l.length) : pyListGet (l.set j a) (Int.ofNat j) = .ok a := by
  unfold pyListGet pyIdx
  have h0 : (0 : Int) ≤ Int.ofNat j := Int.ofNat_nonneg j
  have h1 : Int.ofNat j < ((l.set j a).length : Int) := by
    simp only [Int.ofNat_eq_natCast, List.length_set]
    exact_mod_cast h
  have h2 : (l.set j a)[j]? = some a := List.getElem?_set_eq_of_lt a h
  simp [h0, h1, h, h2]

/-- Replacing a thread by its `change_color` update leaves every thread's
trace of device writes unchanged. -/
theorem map_applied_set_change (ts : List SmartBulbThread) (j : Nat)
    (t : SmartBulbThread) (c : RGB) (h : ts.get? j = some t) :
    (ts.set j (t.change_color c)).map SmartBulbThread.applied =
      ts.map SmartBulbThread.applied := by
  induction ts generalizing j with
  | nil => simp at h
  | cons a rest ih =>
    cases j with
    | zero =>
      simp at h
      subst h
      simp [SmartBulbThread.change_color]
    | succ j0 =>
      simp only [List.get?_cons_succ] at h
      simp only [List.set_cons_succ, List.map_cons]
      rw [ih j0 h]

/-- Replacing a thread by its `change_color` update leaves the listed
parameter dicts unchanged. -/
theorem map_param_set_change (ts : List SmartBulbThread) (j : Nat)
    (t : SmartBulbThread) (c : RGB) (h : ts.get? j = some t) :
    (ts.set j (t.change_color c)).map SmartBulbThread.bulb_param =
      ts.map SmartBulbThread.bulb_param := by
  induction ts generalizing j with
  | nil => simp at h
  | cons a rest ih =>
    cases j with
    | zero =>
      simp at h
      subst h
      simp [SmartBulbThread.change_color]
    | succ j0 =>
      simp only [List.get?_cons_succ] at h
      simp only [List.set_cons_succ, List.map_cons]
      rw [ih j0 h]

/-- The `[b["Name"] for b in self.bulb_params]` comprehension raises
`KeyError("Name")` as soon as the parameter list is nonempty and its dicts
carry only the lowercase `"name"` key. -/
theorem namesUpperKey_error (ps : List Dict) (hne : ps ≠ [])
    (h : ∀ p ∈ ps, dictHasKey p "Name" = false) :
    namesUpperKey ps = .error (.keyError "Name") := by
  cases ps with
  | nil => exact absurd rfl hne
  | cons p rest =>
    unfold namesUpperKey
    rw [dictGet_error p "Name" (h p (by simp))]

/-- Python `int()` truncation is the identity on integer values. -/
theorem pyTrunc_intCast (n : Int) : pyTrunc (n : ℚ) = n := by
  unfold pyTrunc
  by_cases h : (n : ℚ) < 0
  · rw [if_pos h]
    rw [← Rat.cast_intCast (α := ℚ)]
    push_cast
    rw [← Int.cast_neg]
    rw [Int.floor_intCast]
    omega
  · rw [if_neg h]
    exact Int.floor_intCast n

set_option maxRecDepth 10000

/-- For every channel value below 256, `format(n, "02X")` produces exactly two
characters and `int(-, 16)` parses them back to the same value. -/
theorem hex2_roundtrip (n : Nat) (h : n < 256) :
    (format02X (Int.ofNat n)).length = 2 ∧
      pyIntHex (format02X (Int.ofNat n)) = .ok (Int.ofNat n) := by
  revert h
  revert n
  decide

/-- `convert_from_hex` splits a hash followed by three two-character blocks
back into the three parsed channels. -/
theorem convert_from_hex_append (A B C : List Char) (r g b : Int)
    (hA : A.length = 2) (hB : B.length = 2) (hC : C.length = 2)
    (hrA : pyIntHex A = .ok r) (hrB : pyIntHex B = .ok g)
    (hrC : pyIntHex C = .ok b) :
    convert_from_hex (String.mk ('#' :: (A ++ B ++ C))) = .ok (r, g, b) := by
  have htakeA : (A ++ (B ++ C)).take 2 = A := by
    rw [← hA, List.take_left]
  have hdrop2 : (A ++ (B ++ C)).drop 2 = B ++ C := by
    rw [← hA, List.drop_left]
  have htakeB : (B ++ C).take 2 = B := by
    rw [← hB, List.take_left]
  have hdropB : (B ++ C).drop 2 = C := by
    rw [← hB, List.drop_left]
  have hdrop4 : (A ++ (B ++ C)).drop 4 = C := by
    show (A ++ (B ++ C)).drop (2 + 2) = C
    rw [← List.drop_drop, hdrop2, hdropB]
  have htakeC : C.take 2 = C := by
    rw [← hC]
    exact List.take_length C
  unfold convert_from_hex
  simp only [List.append_assoc]
  simp only [List.head?_cons, List.drop_succ_cons, List.drop_zero, List.take_succ_cons]
  simp [htakeA, hdrop2, htakeB, hdrop4, htakeC, hrA, hrB, hrC]

/-- Truncation at interpolation grade 0 returns the first endpoint channel. -/
theorem pyTrunc_grade0 (a d : Int) : pyTrunc ((a : ℚ) + 0 * (d : ℚ)) = a := by
  rw [show ((a : ℚ) + 0 * (d : ℚ)) = ((a : Int) : ℚ) by ring]
  exact pyTrunc_intCast a

/-- Truncation at interpolation grade 1 returns the second endpoint channel. -/
theorem pyTrunc_grade1 (a b : Int) :
    pyTrunc ((a : ℚ) + 1 * (((b - a : Int)) : ℚ)) = b := by
  rw [show ((a : ℚ) + 1 * (((b - a : Int)) : ℚ)) = ((b : Int) : ℚ) by push_cast; ring]
  exact pyTrunc_intCast b

/-!
## Claim theorems
-/

/-- C1: two `change_color` requests issued before the worker wakes occupy one
slot: the second replaces the first (the pending slot holds `v2`), the worker
then applies `v2` to the driver, and (when `v1 ≠ v2`) `v1` is not the last
value applied. -/
theorem bulb_thread_coalesces_requests (t : SmartBulbThread) (v1 v2 : RGB) :
    ((t.change_color v1).change_color v2).color = v2 ∧
    ((t.change_color v1).change_color v2).wake.lastApplied = some v2 ∧
    (v1 ≠ v2 → ((t.change_color v1).change_color v2).wake.lastApplied ≠ some v1) := by
  refine ⟨rfl, ?_, ?_⟩
  · simp [SmartBulbThread.wake, SmartBulbThread.change_color, SmartBulbThread.set_color,
      SmartBulbThread.lastApplied]
  · intro hne
    simp [SmartBulbThread.wake, SmartBulbThread.change_color, SmartBulbThread.set_color,
      SmartBulbThread.lastApplied]
    exact fun h => hne h.symm

/-- Witness for C1 at a concrete thread and two distinct colors. -/
theorem bulb_thread_coalesces_requests_witness :
    (((mkSmartBulbThread bulbParamA).change_color (1, 2, 3)).change_color
        (4, 5, 6)).wake.lastApplied ≠ some (1, 2, 3) :=
  (bulb_thread_coalesces_requests (mkSmartBulbThread bulbParamA) (1, 2, 3) (4, 5, 6)).2.2
    (by decide)

/-- C8: for RGB channels in 0-255, `interpolate_color` at grade 0 returns the
first color and at grade 1 the second, exactly (hence within the claimed
truncation tolerance of 1 per channel). -/
theorem interpolate_color_endpoints (c1 c2 : RGB)
    (h1 : 0 ≤ c1.1) (h2 : c1.1 ≤ 255) (h3 : 0 ≤ c1.2.1) (h4 : c1.2.1 ≤ 255)
    (h5 : 0 ≤ c1.2.2) (h6 : c1.2.2 ≤ 255)
    (g1 : 0 ≤ c2.1) (g2 : c2.1 ≤ 255) (g3 : 0 ≤ c2.2.1) (g4 : c2.2.1 ≤ 255)
    (g5 : 0 ≤ c2.2.2) (g6 : c2.2.2 ≤ 255) :
    interpolate_color c1 c2 0 = c1 ∧ interpolate_color c1 c2 1 = c2 := by
  obtain ⟨r1, gv1, b1⟩ := c1
  obtain ⟨r2, gv2, b2⟩ := c2
  constructor
  · unfold interpolate_color
    simp only
    rw [pyTrunc_grade0, pyTrunc_grade0, pyTrunc_grade0]
  · unfold interpolate_color
    simp only
    rw [pyTrunc_grade1, pyTrunc_grade1, pyTrunc_grade1]

/-- Witness for C8 at two concrete colors. -/
theorem interpolate_color_endpoints_witness :
    interpolate_color (1, 2, 3) (200, 100, 0) 0 = (1, 2, 3) ∧
      interpolate_color (1, 2, 3) (200, 100, 0) 1 = (200, 100, 0) :=
  interpolate_color_endpoints (1, 2, 3) (200, 100, 0)
    (by decide) (by decide) (by decide) (by decide) (by decide) (by decide)
    (by decide) (by decide) (by decide) (by decide) (by decide) (by decide)

/-- C7: for every RGB triple with channels in 0-255, rendering it with the
uppercase two-digit hex format of `get_colors_json_hex` and parsing the
result with `convert_from_hex` yields the same triple. -/
theorem hex_rgb_roundtrip (c : RGB)
    (h1 : 0 ≤ c.1) (h2 : c.1 ≤ 255) (h3 : 0 ≤ c.2.1) (h4 : c.2.1 ≤ 255)
    (h5 : 0 ≤ c.2.2) (h6 : c.2.2 ≤ 255) :
    (rgbToHexString c).bind convert_from_hex = .ok c := by
  obtain ⟨r, g, b⟩ := c
  simp only at h1 h2 h3 h4 h5 h6
  obtain ⟨nr, rfl⟩ : ∃ n : Nat, r = Int.ofNat n :=
    ⟨r.toNat, by rw [Int.ofNat_eq_natCast, Int.toNat_of_nonneg h1]⟩
  obtain ⟨ng, rfl⟩ : ∃ n : Nat, g = Int.ofNat n :=
    ⟨g.toNat, by rw [Int.ofNat_eq_natCast, Int.toNat_of_nonneg h3]⟩
  obtain ⟨nb, rfl⟩ : ∃ n : Nat, b = Int.ofNat n :=
    ⟨b.toNat, by rw [Int.ofNat_eq_natCast, Int.toNat_of_nonneg h5]⟩
  simp only [Int.ofNat_eq_natCast] at h2 h4 h6
  have hr : nr < 256 := by omega
  have hg : ng < 256 := by omega
  have hb : nb < 256 := by omega
  obtain ⟨hlenA, hparseA⟩ := hex2_roundtrip nr hr
  obtain ⟨hlenB, hparseB⟩ := hex2_roundtrip ng hg
  obtain ⟨hlenC, hparseC⟩ := hex2_roundtrip nb hb
  have hfmt : rgbToHexString (Int.ofNat nr, Int.ofNat ng, Int.ofNat nb) =
      .ok (String.mk ('#' :: (format02X (Int.ofNat nr) ++ format02X (Int.ofNat ng) ++
        format02X (Int.ofNat nb)))) := rfl
  rw [hfmt]
  show convert_from_hex _ = _
  exact convert_from_hex_append _ _ _ _ _ _ hlenA hlenB hlenC hparseA hparseB hparseC

/-- Witness for C7 at a concrete color. -/
theorem hex_rgb_roundtrip_witness :
    (rgbToHexString (10, 200, 255)).bind convert_from_hex = .ok (10, 200, 255) :=
  hex_rgb_roundtrip (10, 200, 255)
    (by decide) (by decide) (by decide) (by decide) (by decide) (by decide)

/-- C3 counterexample: the string `"#AABBCC\n"` does not match the bare
pattern `#[0-9A-Fa-f]{6}`, yet the source's `re.match("^#[0-9a-fA-F]{6}$", -)`
accepts it (Python `$` matches before a trailing newline), so `set_color_hex`
returns a success result and changes the cached color instead of returning
the validation error. -/
theorem set_color_hex_newline_accepted :
    specHexPattern newlineHex = false ∧
    is_valid_hex_color newlineHex = true ∧
    mgrA.bulb_colors = [(0, 0, 0)] ∧
    (mgrA.set_color_hex "A" newlineHex).map (fun r => (r.1.bulb_colors, r.2)) =
      .ok ([(170, 187, 204)], some (SetResult.success (170, 187, 204) "A")) := by
  refine ⟨by decide, by decide, by decide, by decide⟩

/-- C3 (amended): for every string rejected by the source regex (everything
except a hash, six hex digits and an optional single trailing newline),
`set_color_hex` returns the error result with exactly the reason
`"color must be hex string like #C0C0C0"` and leaves the whole manager —
cached colors and workers — unchanged, issuing no worker request. -/
theorem set_color_hex_invalid (m : LightManager) (bulb_name s : String)
    (h : is_valid_hex_color s = false) :
    m.set_color_hex bulb_name s =
      .ok (m, some (.error "color must be hex string like #C0C0C0" bulb_name)) := by
  unfold LightManager.set_color_hex
  simp [h]

/-- Witness for the amended C3 at a concrete manager and malformed string. -/
theorem set_color_hex_invalid_witness :
    mgrA.set_color_hex "A" "#ZZZZZZ" =
      .ok (mgrA, some (.error "color must be hex string like #C0C0C0" "A")) :=
  set_color_hex_invalid mgrA "A" "#ZZZZZZ" (by decide)

/-- C9: `get_color_hex` never returns a hex string: for every manager state
and name it raises, and whenever `get_color` produced a color tuple the
raised exception is the `TypeError` from applying the `{:02X}` placeholder to
the whole tuple (the unpacking `*` of `get_colors_json_hex` is missing). -/
theorem get_color_hex_always_raises :
    (∀ (m : LightManager) (q : String), exceptIsOk (m.get_color_hex q) = false) ∧
    (∀ (m m2 : LightManager) (q : String) (c : RGB),
      m.get_color q = .ok (m2, some c) →
      m.get_color_hex q = .error (.typeError tupleFormatMsg)) := by
  constructor
  · intro m q
    unfold LightManager.get_color_hex
    cases h : m.get_color q with
    | error e => simp [exceptIsOk]
    | ok p =>
      obtain ⟨m2, copt⟩ := p
      cases copt <;>
        simp [formatHexTemplate, pyGetArg, pyFormat02X, List.get?, exceptIsOk]
  · intro m m2 q c h
    unfold LightManager.get_color_hex
    rw [h]
    simp [formatHexTemplate, pyGetArg, pyFormat02X, List.get?]

/-- Witness for C9 at a concrete manager whose bulb has a valid cached
color. -/
theorem get_color_hex_always_raises_witness :
    mgrA.get_color_hex "A" = .error (.typeError tupleFormatMsg) :=
  get_color_hex_always_raises.2 mgrA mgrA "A" (0, 0, 0) (by decide)

/-- C2 counterexample: on a manager with one bulb `"A"`, `set_color` for the
unknown name `"B"` raises `KeyError("Name")` while building the valid-name
list (the code reads `b["Name"]` but the parameter dicts carry `"name"`),
instead of returning a structured error result. -/
theorem set_color_unknown_raises :
    mgrA.set_color "B" (1, 2, 3) = .error (.keyError "Name") := by decide

/-- C2 (amended): on an unknown name, the outlet `set_state` returns a
structured error carrying the offending name but only the fixed reason
`"outlet name not found"` (no list of valid names), while the bulb
`set_color` raises `KeyError("Name")` while trying to build the valid-name
list, because it reads the capitalized key `"Name"` absent from the
parameter dicts (whenever the bulb list is nonempty). -/
theorem set_unknown_name_behavior :
    (∀ (m : LightManager) (q : String) (c : RGB),
      m.bulb_params ≠ [] →
      (∀ p ∈ m.bulb_params, (dictName p).isSome = true) →
      (∀ p ∈ m.bulb_params, dictHasKey p "Name" = false) →
      (∀ p ∈ m.bulb_params, dictName p ≠ some q) →
      m.set_color q c = .error (.keyError "Name")) ∧
    (∀ (om : OutletManager) (q : String) (st : Bool),
      (∀ p ∈ om.outlet_param, (dictName p).isSome = true) →
      (∀ p ∈ om.outlet_param,
        (dictName p).map pyLower ≠ some (pyLower q)) →
      om.set_state q st = .ok (om, some (.error "outlet name not found" q))) := by
  constructor
  · intro m q c hne hn hN hmiss
    unfold LightManager.set_color LightManager.find_bulb_index
    rw [findBulbIndexAux_spec q m.bulb_params 0 hn]
    rw [(firstNameIdx_eq_none_iff m.bulb_params q).mpr hmiss]
    rw [namesUpperKey_error m.bulb_params hne hN]
    rfl
  · intro om q st hn hmiss
    unfold OutletManager.set_state OutletManager.find_outlet_index
    rw [findOutletIndexAux_spec q om.outlet_param 0 hn]
    rw [(firstNameIdxCI_eq_none_iff om.outlet_param q).mpr hmiss]
    rfl

/-- Witness for the amended C2 at concrete one-device managers and the
unknown name `"Z"`. -/
theorem set_unknown_name_behavior_witness :
    mgrA.set_color "Z" (1, 2, 3) = .error (.keyError "Name") ∧
    omA.set_state "Z" true = .ok (omA, some (.error "outlet name not found" "Z")) :=
  ⟨set_unknown_name_behavior.1 mgrA "Z" (1, 2, 3) (by decide) (by decide)
      (by decide) (by decide),
    set_unknown_name_behavior.2 omA "Z" true (by decide) (by decide)⟩

/-- C4: for a name carried by one of the configured bulbs, `set_color`
synchronously overwrites the manager's cached color at that bulb's index with
the requested value (readable back immediately, while the matching worker has
only been notified — its trace of completed device writes is unchanged) and
returns the success dict echoing the accepted value and the name. -/
theorem set_color_known_updates_cache (m : LightManager) (q : String) (c : RGB)
    (hwf : m.WF) (hknown : ∃ p ∈ m.bulb_params, dictName p = some q) :
    ∃ (j : Nat) (t : SmartBulbThread),
      firstNameIdx m.bulb_params q = some j ∧
      m.bulb_threads.get? j = some t ∧
      m.set_color q c =
        .ok ({ m with bulb_colors := m.bulb_colors.set j c,
                      bulb_threads := m.bulb_threads.set j (t.change_color c) },
             some (.success c q)) ∧
      (m.bulb_colors.set j c)[j]? = some c ∧
      (m.bulb_threads.set j (t.change_color c)).map SmartBulbThread.applied =
        m.bulb_threads.map SmartBulbThread.applied := by
  obtain ⟨hmap, hlen, hn⟩ := hwf
  obtain ⟨p, hp, hpname⟩ := hknown
  obtain ⟨j, hj⟩ :=
    Option.isSome_iff_exists.mp (firstNameIdx_isSome_of_mem m.bulb_params q p hp hpname)
  have hjlt : j < m.bulb_params.length := firstNameIdx_lt_length _ _ _ hj
  have hjlt2 : j < m.bulb_colors.length := by rw [hlen]; exact hjlt
  have hnth : ∀ t ∈ m.bulb_threads, (dictName t.bulb_param).isSome = true := by
    intro t ht
    exact hn _ (hmap ▸ List.mem_map_of_mem SmartBulbThread.bulb_param ht)
  have hjth : firstNameIdx (m.bulb_threads.map SmartBulbThread.bulb_param) q = some j := by
    rw [hmap]; exact hj
  obtain ⟨t, hget, hloop⟩ := setColorLoop_found q c m.bulb_threads j hnth hjth
  have hcond : (Int.ofNat j == (-1 : Int)) = false := by
    rw [Int.ofNat_eq_natCast, beq_eq_false_iff_ne]
    omega
  refine ⟨j, t, hj, hget, ?_, ?_, ?_⟩
  · unfold LightManager.set_color LightManager.find_bulb_index
    rw [findBulbIndexAux_spec q m.bulb_params 0 hn, hj]
    simp only [Nat.zero_add]
    simp only [hcond, Bool.false_eq_true, if_false,
      pyListSet_ok m.bulb_colors j c hjlt2, hloop]
  · exact List.getElem?_set_eq_of_lt c hjlt2
  · exact map_applied_set_change m.bulb_threads j t c hget

/-- Witness for C4 at a concrete manager and its known bulb name. -/
theorem set_color_known_updates_cache_witness :
    ∃ (j : Nat) (t : SmartBulbThread),
      firstNameIdx mgrA.bulb_params "A" = some j ∧
      mgrA.bulb_threads.get? j = some t ∧
      mgrA.set_color "A" (5, 6, 7) =
        .ok ({ mgrA with bulb_colors := mgrA.bulb_colors.set j (5, 6, 7),
                         bulb_threads := mgrA.bulb_threads.set j (t.change_color (5, 6, 7)) },
             some (.success (5, 6, 7) "A")) ∧
      (mgrA.bulb_colors.set j (5, 6, 7))[j]? = some (5, 6, 7) ∧
      (mgrA.bulb_threads.set j (t.change_color (5, 6, 7))).map SmartBulbThread.applied =
        mgrA.bulb_threads.map SmartBulbThread.applied :=
  set_color_known_updates_cache mgrA "A" (5, 6, 7)
    (by refine ⟨by decide, by decide, by decide⟩)
    (by exact ⟨bulbParamA, by decide, by decide⟩)

/-- C6: name lookup is case-sensitive for bulbs but case-insensitive for
outlets.  For a query `q` that differs from a registered name `r` only in
letter case (and matches no bulb name exactly), the bulb index lookup misses
(returns `-1`) and `set_color` cannot return a success dict, while the outlet
index lookup hits and `set_state` succeeds. -/
theorem name_lookup_case_asymmetry (m : LightManager) (om : OutletManager)
    (q r : String) (c : RGB) (st : Bool)
    (hwfm : m.WF) (hwfo : om.WF)
    (hlow : pyLower r = pyLower q)
    (hrbulb : ∃ p ∈ m.bulb_params, dictName p = some r)
    (hroutlet : ∃ p ∈ om.outlet_param, dictName p = some r)
    (hmiss : ∀ p ∈ m.bulb_params, dictName p ≠ some q) :
    (m.find_bulb_index q = .ok (-1) ∧
      ∀ (m2 : LightManager) (v : RGB) (nm : String),
        m.set_color q c ≠ .ok (m2, some (SetResult.success v nm))) ∧
    ((∃ j : Nat, om.find_outlet_index q = .ok (Int.ofNat j)) ∧
      ∃ om2, om.set_state q st = .ok (om2, some (SetResult.success st q))) := by
  obtain ⟨hmapm, hlenm, hnm⟩ := hwfm
  obtain ⟨hmapo, hno⟩ := hwfo
  have hfindm : m.find_bulb_index q = .ok (-1) := by
    unfold LightManager.find_bulb_index
    rw [findBulbIndexAux_spec q m.bulb_params 0 hnm,
      (firstNameIdx_eq_none_iff m.bulb_params q).mpr hmiss]
  refine ⟨⟨hfindm, ?_⟩, ?_, ?_⟩
  · intro m2 v nm hcontra
    unfold LightManager.set_color at hcontra
    rw [hfindm] at hcontra
    cases hN : namesUpperKey m.bulb_params with
    | error e => simp [hN] at hcontra
    | ok names => simp [hN] at hcontra
  · obtain ⟨p, hp, hpname⟩ := hroutlet
    obtain ⟨j, hj⟩ := Option.isSome_iff_exists.mp
      (firstNameIdxCI_isSome_of_mem om.outlet_param q p r hp hpname hlow)
    refine ⟨0 + j, ?_⟩
    unfold OutletManager.find_outlet_index
    rw [findOutletIndexAux_spec q om.outlet_param 0 hno, hj]
  · obtain ⟨p, hp, hpname⟩ := hroutlet
    obtain ⟨j, hj⟩ := Option.isSome_iff_exists.mp
      (firstNameIdxCI_isSome_of_mem om.outlet_param q p r hp hpname hlow)
    have hnth : ∀ t ∈ om.outlet_threads, (dictName t.outlet_param).isSome = true := by
      intro t ht
      exact hno _ (hmapo ▸ List.mem_map_of_mem OutletThread.outlet_param ht)
    have hjth : firstNameIdxCI (om.outlet_threads.map OutletThread.outlet_param) q
        = some j := by
      rw [hmapo]; exact hj
    obtain ⟨t, hget, hloop⟩ := setStateLoop_found q st om.outlet_threads j hnth hjth
    have hcond : (Int.ofNat (0 + j) == (-1 : Int)) = false := by
      rw [Nat.zero_add, Int.ofNat_eq_natCast, beq_eq_false_iff_ne]
      omega
    refine ⟨{ om with outlet_threads := om.outlet_threads.set j (t.change_state st) }, ?_⟩
    unfold OutletManager.set_state OutletManager.find_outlet_index
    rw [findOutletIndexAux_spec q om.outlet_param 0 hno, hj]
    simp only [hcond, Bool.false_eq_true, if_false, hloop]

/-- Witness for C6: a bulb and an outlet both registered as `"A"`, queried as
`"a"`. -/
theorem name_lookup_case_asymmetry_witness :
    (mgrA.find_bulb_index "a" = .ok (-1) ∧
      ∀ (m2 : LightManager) (v : RGB) (nm : String),
        mgrA.set_color "a" (1, 2, 3) ≠ .ok (m2, some (SetResult.success v nm))) ∧
    ((∃ j : Nat, omA.find_outlet_index "a" = .ok (Int.ofNat j)) ∧
      ∃ om2, omA.set_state "a" true = .ok (om2, some (SetResult.success true "a"))) :=
  name_lookup_case_asymmetry mgrA omA "a" "A" (1, 2, 3) true
    ⟨by decide, by decide, by decide⟩ ⟨by decide, by decide⟩ (by decide)
    ⟨bulbParamA, by decide, by decide⟩ ⟨outletParamA, by decide, by decide⟩
    (by decide)

/-- C10: on a name matching no managed device, `get_color` and `get_state`
fall off the end of their thread loops and return `None` — no value, no
structured error, no exception; and `get_state`'s internal unknown-name error
branch is unreachable, because it is guarded by the same case-insensitive
name match that just succeeded. -/
theorem getters_fall_through :
    (∀ (m : LightManager) (q : String), m.WF →
      (∀ p ∈ m.bulb_params, dictName p ≠ some q) →
      m.get_color q = .ok (m, none)) ∧
    (∀ (om : OutletManager) (q : String), om.WF →
      (∀ p ∈ om.outlet_param, (dictName p).map pyLower ≠ some (pyLower q)) →
      om.get_state q = .ok none) ∧
    (∀ (om : OutletManager) (q reason nm : String), om.WF →
      om.get_state q ≠ .ok (some (SetResult.error reason nm))) := by
  refine ⟨?_, ?_, ?_⟩
  · intro m q hwf hmiss
    obtain ⟨hmap, hlen, hn⟩ := hwf
    have hnth : ∀ t ∈ m.bulb_threads, (dictName t.bulb_param).isSome = true := by
      intro t ht
      exact hn _ (hmap ▸ List.mem_map_of_mem SmartBulbThread.bulb_param ht)
    have h0 : firstNameIdx (m.bulb_threads.map SmartBulbThread.bulb_param) q = none := by
      rw [hmap]
      exact (firstNameIdx_eq_none_iff m.bulb_params q).mpr hmiss
    unfold LightManager.get_color
    rw [findBulbThread_none q m.bulb_threads hnth h0]
  · intro om q hwf hmiss
    obtain ⟨hmap, hn⟩ := hwf
    have hnth : ∀ t ∈ om.outlet_threads, (dictName t.outlet_param).isSome = true := by
      intro t ht
      exact hn _ (hmap ▸ List.mem_map_of_mem OutletThread.outlet_param ht)
    have h0 : firstNameIdxCI (om.outlet_threads.map OutletThread.outlet_param) q = none := by
      rw [hmap]
      exact (firstNameIdxCI_eq_none_iff om.outlet_param q).mpr hmiss
    unfold OutletManager.get_state
    rw [findOutletThread_none q om.outlet_threads hnth h0]
  · intro om q reason nm hwf hcontra
    obtain ⟨hmap, hn⟩ := hwf
    have hnth : ∀ t ∈ om.outlet_threads, (dictName t.outlet_param).isSome = true := by
      intro t ht
      exact hn _ (hmap ▸ List.mem_map_of_mem OutletThread.outlet_param ht)
    cases hf : firstNameIdxCI om.outlet_param q with
    | none =>
      have h0 : firstNameIdxCI (om.outlet_threads.map OutletThread.outlet_param) q
          = none := by rw [hmap]; exact hf
      unfold OutletManager.get_state at hcontra
      rw [findOutletThread_none q om.outlet_threads hnth h0] at hcontra
      simp at hcontra
    | some j =>
      have hjth : firstNameIdxCI (om.outlet_threads.map OutletThread.outlet_param) q
          = some j := by rw [hmap]; exact hf
      obtain ⟨t, hget, hnamet, hfind⟩ := findOutletThread_found q om.outlet_threads j hnth hjth
      have hcond : (Int.ofNat (0 + j) == (-1 : Int)) = false := by
        rw [Nat.zero_add, Int.ofNat_eq_natCast, beq_eq_false_iff_ne]
        omega
      unfold OutletManager.get_state OutletManager.find_outlet_index at hcontra
      rw [hfind, findOutletIndexAux_spec q om.outlet_param 0 hn, hf] at hcontra
      simp only [hcond, Bool.false_eq_true, if_false] at hcontra
      simp at hcontra

/-- Witness for C10 at concrete managers and the unknown name `"Z"`. -/
theorem getters_fall_through_witness :
    mgrA.get_color "Z" = .ok (mgrA, none) ∧
    omA.get_state "Z" = .ok none ∧
    omA.get_state "a" ≠ .ok (some (SetResult.error "outlet name not found" "a")) :=
  ⟨getters_fall_through.1 mgrA "Z" ⟨by decide, by decide, by decide⟩ (by decide),
    getters_fall_through.2.1 omA "Z" ⟨by decide, by decide⟩ (by decide),
    getters_fall_through.2.2 omA "a" "outlet name not found" "a"
      ⟨by decide, by decide⟩⟩

/-- `get_color` on a well-formed manager returns the first matching worker's
live color (refreshing only the cache entry) and never raises. -/
theorem get_color_spec (m : LightManager) (q : String)
    (hmap : m.bulb_threads.map SmartBulbThread.bulb_param = m.bulb_params)
    (hlen : m.bulb_colors.length = m.bulb_params.length)
    (hn : ∀ p ∈ m.bulb_params, (dictName p).isSome = true) :
    ∃ cs2, cs2.length = m.bulb_colors.length ∧
      m.get_color q = .ok ({ m with bulb_colors := cs2 },
        firstThreadColor m.bulb_threads q) := by
  have hnth : ∀ t ∈ m.bulb_threads, (dictName t.bulb_param).isSome = true := by
    intro t ht
    exact hn _ (hmap ▸ List.mem_map_of_mem SmartBulbThread.bulb_param ht)
  cases hf : firstNameIdx m.bulb_params q with
  | none =>
    have h0 : firstNameIdx (m.bulb_threads.map SmartBulbThread.bulb_param) q = none := by
      rw [hmap]; exact hf
    have hmiss := (firstNameIdx_eq_none_iff _ q).mp h0
    have hfind : m.bulb_threads.find?
        (fun t => dictName t.bulb_param == some q) = none := by
      rw [List.find?_eq_none]
      intro t ht
      simp only [beq_iff_eq]
      exact hmiss _ (List.mem_map_of_mem SmartBulbThread.bulb_param ht)
    refine ⟨m.bulb_colors, rfl, ?_⟩
    unfold LightManager.get_color
    rw [findBulbThread_none q m.bulb_threads hnth h0]
    unfold firstThreadColor
    rw [hfind]
    rfl
  | some j =>
    have hjth : firstNameIdx (m.bulb_threads.map SmartBulbThread.bulb_param) q
        = some j := by rw [hmap]; exact hf
    obtain ⟨t, hget, hdict, hfind, hcolor⟩ :=
      findBulbThread_found q m.bulb_threads j hnth hjth
    have hjlt : j < m.bulb_colors.length := by
      rw [hlen]
      exact firstNameIdx_lt_length _ _ _ hf
    refine ⟨m.bulb_colors.set j t.color, by simp [List.length_set], ?_⟩
    unfold LightManager.get_color LightManager.find_bulb_index
    rw [hfind, findBulbIndexAux_spec q m.bulb_params 0 hn, hf]
    simp only [Nat.zero_add]
    simp only [pyListSet_ok m.bulb_colors j t.color hjlt,
      pyListGet_set_self m.bulb_colors j t.color hjlt, hcolor]

/-- The snapshot loop of `rotate` collects, per configured bulb, the live
color of the first worker registered under that bulb's name; it touches only
the cache and performs no worker notification. -/
theorem rotateSnapshotLoop_spec (ps : List Dict) (m : LightManager)
    (acc : List (Option RGB))
    (hmap : m.bulb_threads.map SmartBulbThread.bulb_param = m.bulb_params)
    (hlen : m.bulb_colors.length = m.bulb_params.length)
    (hn : ∀ p ∈ m.bulb_params, (dictName p).isSome = true)
    (hsub : ∀ p ∈ ps, p ∈ m.bulb_params) :
    ∃ cs2, cs2.length = m.bulb_colors.length ∧
      rotateSnapshotLoop m ps acc = .ok ({ m with bulb_colors := cs2 },
        acc ++ ps.map (fun p => (dictName p).bind
          (fun n => firstThreadColor m.bulb_threads n))) := by
  induction ps generalizing m acc with
  | nil =>
    exact ⟨m.bulb_colors, rfl, by simp [rotateSnapshotLoop]⟩
  | cons p rest ih =>
    obtain ⟨n, hget, hname⟩ := dictGet_name_of_isSome p (hn p (hsub p (by simp)))
    obtain ⟨cs2, hcs2, hgc⟩ := get_color_spec m n hmap hlen hn
    obtain ⟨cs3, hcs3, hloop⟩ := ih { m with bulb_colors := cs2 }
      (acc ++ [firstThreadColor m.bulb_threads n])
      hmap (by simpa [hcs2] using hlen) hn
      (fun p2 hp2 => hsub p2 (by simp [hp2]))
    refine ⟨cs3, by rw [hcs3, hcs2], ?_⟩
    unfold rotateSnapshotLoop
    simp only [hget, hgc, hloop]
    simp [hname]

/-- C5 (amended): `rotate` snapshots, for each configured bulb, its worker's
current color into `bulb_rotation_colors` (refreshing the cache on the way),
stores the rotation parameters, and sets `is_rotation_active`; it performs no
device writes and notifies no worker (the thread list is unchanged), and it
leaves the rotation worker's locals — in particular the pass counter
`cycle` — untouched. -/
theorem rotate_sets_rotation_state (s : LightSystem) (speed pause : ℚ)
    (cw : Bool) (hwf : s.mgr.WF) :
    ∃ m2, s.rotate speed pause cw = .ok { mgr := m2, rotw := s.rotw } ∧
      m2.is_rotation_active = true ∧
      m2.rotation_speed = speed ∧
      m2.rotation_update_pause = pause ∧
      m2.rotation_clockwise = cw ∧
      m2.bulb_threads = s.mgr.bulb_threads ∧
      m2.bulb_params = s.mgr.bulb_params ∧
      m2.bulb_rotation_colors =
        s.mgr.bulb_params.map (fun p => (dictName p).bind
          (fun n => firstThreadColor s.mgr.bulb_threads n)) := by
  obtain ⟨hmap, hlen, hn⟩ := hwf
  obtain ⟨cs2, hcs2, hloop⟩ := rotateSnapshotLoop_spec s.mgr.bulb_params
    { s.mgr with bulb_rotation_colors := ([] : List (Option RGB)) } []
    hmap hlen hn (fun p hp => hp)
  refine Exists.intro
    { s.mgr with
      bulb_colors := cs2
      bulb_rotation_colors := s.mgr.bulb_params.map (fun p => (dictName p).bind
        (fun n => firstThreadColor s.mgr.bulb_threads n))
      rotation_speed := speed
      rotation_update_pause := pause
      rotation_clockwise := cw
      is_rotation_active := true }
    ⟨?_, rfl, rfl, rfl, rfl, rfl, rfl, rfl⟩
  unfold LightSystem.rotate LightManager.rotate
  rw [hloop]
  rfl

/-- C5 counterexample: on a system whose rotation worker sits mid-pass with
its local `cycle` equal to 3, calling `rotate` leaves `cycle` at 3 — the
claimed reset of the cycle position to 0 does not happen, because `cycle` is
a local variable of `rotation_worker` that `rotate` never touches. -/
theorem rotate_does_not_reset_cycle :
    sysCycle3.rotw.cycle = 3 ∧
    (LightSystem.rotate sysCycle3 10 1 true).map (fun s2 => s2.rotw.cycle) =
      .ok 3 ∧
    (3 : ℚ) ≠ 0 :=
  ⟨by decide, by decide, by decide⟩

/-- Witness for the amended C5 at a concrete one-bulb system. -/
theorem rotate_sets_rotation_state_witness :
    ∃ m2, sysCycle3.rotate 4 1 true = .ok { mgr := m2, rotw := sysCycle3.rotw } ∧
      m2.is_rotation_active = true ∧
      m2.rotation_speed = 4 ∧
      m2.rotation_update_pause = 1 ∧
      m2.rotation_clockwise = true ∧
      m2.bulb_threads = sysCycle3.mgr.bulb_threads ∧
      m2.bulb_params = sysCycle3.mgr.bulb_params ∧
      m2.bulb_rotation_colors =
        sysCycle3.mgr.bulb_params.map (fun p => (dictName p).bind
          (fun n => firstThreadColor sysCycle3.mgr.bulb_threads n)) :=
  rotate_sets_rotation_state sysCycle3 4 1 true ⟨by decide, by decide, by decide⟩
